import Mathlib

/-!
Verification development for the Matrix project-manager bot, a shallow
embedding of `src/bot.py`. Pure control flow of the callbacks, the login
probe, the start sequence and the process guard is translated into
executable Lean functions; the homeserver client is represented by the
outbound calls the bot issues to it. Components the spec describes but the
source delegates entirely to the outside (the homeserver's membership
bookkeeping, the reconnection/backoff controller) are modelled from the
spec and marked as such in their doc comments.
-/

namespace MatrixBot

/-- Startup configuration read from the environment at import time
(src/bot.py lines 17-26). Each field is `none` when the corresponding
environment variable is unset, since `os.getenv` returns `None`. -/
structure Config where
  matrixServer : Option String
  matrixBotUser : Option String
  matrixAccessToken : Option String
deriving DecidableEq

/-- A Matrix room as seen by a callback (nio `MatrixRoom`); the callbacks use
only its `room_id`. -/
structure MatrixRoom where
  room_id : String
deriving DecidableEq

/-- A text message event (nio `RoomMessageText`): the fields the bot reads. -/
structure RoomMessageText where
  sender : String
  body : String
deriving DecidableEq

/-- A room invite event (nio `InviteEvent`): the inviting sender. -/
structure InviteEvent where
  sender : String
deriving DecidableEq

/-- The content dictionary built by `message_callback`
(src/bot.py lines 137-140): a msgtype tag and a body string. -/
structure MessageContent where
  msgtype : String
  body : String
deriving DecidableEq

/-- An outbound call the bot issues to the homeserver client object. -/
inductive Action where
  | join (roomId : String)
  | room_send (roomId : String) (messageType : String) (content : MessageContent)
deriving DecidableEq

/-- The bot object built by `MatrixTestBot.__init__` (src/bot.py lines
38-58): the client is created from the configured server and user, and the
configured user is also stored as `bot_user_id` for the self-message
filter. No configuration value is checked for presence. -/
structure Bot where
  homeserver : Option String
  client_user_id : Option String
  bot_user_id : Option String
  access_token : Option String
deriving DecidableEq

/-- `MatrixTestBot.__init__`: total, never fails, stores the configuration
values as they are (absent values flow through as `none`). -/
def initBot (cfg : Config) : Bot :=
  { homeserver := cfg.matrixServer
  , client_user_id := cfg.matrixBotUser
  , bot_user_id := cfg.matrixBotUser
  , access_token := none }

/-- The response of the whoami probe: a success response carries a `user_id`
attribute, an error response does not. The Python code distinguishes the two
with `hasattr(response, "user_id")` (src/bot.py line 86). -/
inductive WhoamiResponse where
  | success (user_id : String)
  | failure (message : String)
deriving DecidableEq

/-- The `hasattr(response, "user_id")` test of src/bot.py line 86. -/
def hasUserIdAttr : WhoamiResponse → Bool
  | .success _ => true
  | .failure _ => false

/-- `MatrixTestBot.login` (src/bot.py lines 60-91): set the access token and
user id from configuration, issue the whoami probe, and succeed iff the
response has a `user_id` attribute; the returned identifier is only printed,
never compared to the configured account id. On a response without the
attribute an exception is raised. -/
def login (cfg : Config) (b : Bot) (resp : WhoamiResponse) :
    Except String (Bot × WhoamiResponse) :=
  let b1 : Bot :=
    { b with access_token := cfg.matrixAccessToken
           , client_user_id := cfg.matrixBotUser }
  if hasUserIdAttr resp then Except.ok (b1, resp)
  else Except.error "Token authentication failed"

/-- The self-message test `event.sender == self.bot_user_id`
(src/bot.py line 124). In Python a string never compares equal to `None`,
so when the configured bot user is absent the test is always false. -/
def senderIsSelf (bot_user_id : Option String) (sender : String) : Bool :=
  match bot_user_id with
  | none => false
  | some u => sender == u

/-- `MatrixTestBot.message_callback` (src/bot.py lines 111-142): return
without acting when the sender equals the stored `bot_user_id`; otherwise
issue exactly one `room_send` of an echo reply to the room the message
arrived in. The result is the list of outbound calls issued. -/
def message_callback (b : Bot) (room : MatrixRoom) (event : RoomMessageText) :
    List Action :=
  if senderIsSelf b.bot_user_id event.sender then []
  else [Action.room_send room.room_id "m.room.message"
          { msgtype := "m.text", body := "You said: " ++ event.body }]

/-- Fault-injection environment for outbound calls: the result the
homeserver client returns when the bot joins a given room (`Except.error`
models a raised exception). src/bot.py wraps `await self.client.join` in no
try/except. -/
structure Env where
  joinResult : String → Except String Unit

/-- Result of running one callback or one dispatch pass: the outbound calls
issued before returning or raising, and the escaping exception if any. -/
structure StepResult where
  actions : List Action
  err : Option String
deriving DecidableEq

/-- `MatrixTestBot.invite_callback` (src/bot.py lines 93-109):
unconditionally join the invited room; an exception from the join call
propagates out of the callback. -/
def invite_callback (env : Env) (room : MatrixRoom) (event : InviteEvent) :
    StepResult :=
  match env.joinResult room.room_id with
  | Except.ok _ => { actions := [Action.join room.room_id], err := none }
  | Except.error e => { actions := [Action.join room.room_id], err := some e }

/-- An incoming event together with its room, as delivered by the sync loop
to the callbacks registered in `__init__` (src/bot.py lines 55-58). -/
inductive Event where
  | invite (room : MatrixRoom) (event : InviteEvent)
  | message (room : MatrixRoom) (event : RoomMessageText)
deriving DecidableEq

/-- Dispatch of a single event to the callback registered for its kind. -/
def handleEvent (env : Env) (b : Bot) : Event → StepResult
  | .invite room ev => invite_callback env room ev
  | .message room ev => { actions := message_callback b room ev, err := none }

/-- Dispatch of one sync batch: events are handled strictly in order, and an
exception raised by a callback propagates immediately, aborting dispatch of
the remaining events — the source installs no per-event error handling. -/
def dispatchBatch (env : Env) (b : Bot) : List Event → StepResult
  | [] => { actions := [], err := none }
  | e :: rest =>
    match (handleEvent env b e).err with
    | some m => { actions := (handleEvent env b e).actions, err := some m }
    | none =>
      { actions := (handleEvent env b e).actions ++ (dispatchBatch env b rest).actions
      , err := (dispatchBatch env b rest).err }

/-- The sync loop over successive batches: an exception escaping a batch
escapes the loop (src/bot.py line 170 awaits the loop with no handler), so
later batches are never dispatched. -/
def runBatches (env : Env) (b : Bot) : List (List Event) → StepResult
  | [] => { actions := [], err := none }
  | batch :: rest =>
    match (dispatchBatch env b batch).err with
    | some m => { actions := (dispatchBatch env b batch).actions, err := some m }
    | none =>
      { actions := (dispatchBatch env b batch).actions ++ (runBatches env b rest).actions
      , err := (runBatches env b rest).err }

/-- Room membership states (spec section 3, `RoomMembership`). -/
inductive MembershipState where
  | invited
  | joined
  | left
deriving DecidableEq

/-- Modelled from the spec: the homeserver's membership bookkeeping is an
external collaborator, out of scope of src/ (spec sections 1 and 4.1-4.4).
Per the spec, a successful `join` call makes the room's membership state
`joined`; other outbound calls leave membership unchanged. -/
def applyAction (st : String → Option MembershipState) (a : Action) :
    String → Option MembershipState :=
  match a with
  | .join rid => fun r => if r == rid then some MembershipState.joined else st r
  | _ => st

/-- Effect of a list of outbound calls on the membership map, applied in
order of issue. -/
def applyActions (st : String → Option MembershipState) :
    List Action → (String → Option MembershipState)
  | [] => st
  | a :: rest => applyActions (applyAction st a) rest

/-- One poll request as issued by the client: its timeout in milliseconds
and the `full_state` argument if one was passed. -/
structure SyncCall where
  timeoutMs : Nat
  full_state : Option Bool
deriving DecidableEq

/-- The sequence of sync calls `MatrixTestBot.start` issues once login has
succeeded (src/bot.py lines 161-170): one initial `sync(timeout=30000)`
with no `full_state` argument, then the `sync_forever(timeout=30000,
full_state=True)` loop whose polls carry `full_state=True` — the source
comment reads "full_state=True ensures we get complete room state on each
sync". `n` is the number of loop polls observed. -/
def startSyncCalls (n : Nat) : List SyncCall :=
  { timeoutMs := 30000, full_state := none }
    :: List.replicate n { timeoutMs := 30000, full_state := some true }

/-- A network call attempted by `MatrixTestBot.start`. -/
inductive NetCall where
  | whoamiCall
  | syncCall (c : SyncCall)
deriving DecidableEq

/-- The network calls attempted by `MatrixTestBot.start` (src/bot.py lines
144-170) under configuration `cfg`, when the whoami probe would return
`resp` and the sync loop is observed for `n` polls: the whoami probe is
attempted first, with no prior validation of the configuration; syncing
begins only if login succeeded, and the exception of a failed login
propagates out of `start`. -/
def startNetCalls (cfg : Config) (resp : WhoamiResponse) (n : Nat) :
    List NetCall :=
  NetCall.whoamiCall ::
    (match login cfg (initBot cfg) resp with
     | Except.ok _ => (startSyncCalls n).map NetCall.syncCall
     | Except.error _ => [])

/-- How `asyncio.run(bot.start())` terminates, as observed by the
`__main__` guard. -/
inductive RunOutcome where
  | keyboardInterrupt
  | raised (message : String)
deriving DecidableEq

/-- The `__main__` guard (src/bot.py lines 195-201): a KeyboardInterrupt
prints a stop notice, any other exception prints a crash message; in both
cases the script then falls off its end, so the interpreter exits with
status 0. The result is the pair of printed lines and process exit
status. -/
def mainGuard : RunOutcome → List String × Nat
  | .keyboardInterrupt => (["\nBot stopped by user"], 0)
  | .raised m => (["Bot crashed: " ++ m], 0)

/-- Modelled from the spec: the Reconnection/Backoff Controller of spec
section 4.5 is not implemented in src/bot.py — the source delegates the
retry loop to the external library call at src/bot.py line 170. Per the
spec: exponential backoff capped at a maximum interval, with the
consecutive-failure counter reset to zero by a successful poll and the
delay floor equal to the base interval. The jitter the spec mentions is
not modelled: spec section 8 requires the delay schedule itself to be
non-decreasing up to the cap. -/
structure BackoffController where
  base : Nat
  cap : Nat
  failures : Nat
deriving DecidableEq

/-- The delay the controller imposes in its current state: exponential in
the consecutive-failure count, capped. -/
def BackoffController.delay (c : BackoffController) : Nat :=
  min (c.base * 2 ^ c.failures) c.cap

/-- Transition on a network transport error: one more consecutive
failure. -/
def BackoffController.onNetworkError (c : BackoffController) : BackoffController :=
  { c with failures := c.failures + 1 }

/-- Transition on a successful poll: the consecutive-failure counter
resets to zero. -/
def BackoffController.onSuccess (c : BackoffController) : BackoffController :=
  { c with failures := 0 }

/-! Sample concrete values used by witnesses and counterexamples. -/

/-- A sample bot configured with account id "@bot:example.org". -/
def botA : Bot :=
  { homeserver := some "https://matrix.example.org"
  , client_user_id := some "@bot:example.org"
  , bot_user_id := some "@bot:example.org"
  , access_token := some "secret-token" }

/-- A sample configuration with every value present. -/
def cfgA : Config :=
  { matrixServer := some "https://matrix.example.org"
  , matrixBotUser := some "@bot:example.org"
  , matrixAccessToken := some "secret-token" }

/-- The configuration with every required value absent. -/
def cfgNone : Config :=
  { matrixServer := none, matrixBotUser := none, matrixAccessToken := none }

/-- A configuration whose MATRIX_BOT_USER variable is unset. -/
def cfgNoUser : Config :=
  { matrixServer := some "https://matrix.example.org"
  , matrixBotUser := none
  , matrixAccessToken := some "secret-token" }

/-- The sample room of the spec scenario. -/
def roomAbc : MatrixRoom := { room_id := "!abc:example.org" }

/-- The sample message of the spec scenario. -/
def msgHi : RoomMessageText := { sender := "@alice:example.org", body := "hi" }

/-- An environment in which every join call succeeds. -/
def envOk : Env := { joinResult := fun _ => Except.ok () }

/-- An environment in which the join of room "!abc:example.org" raises. -/
def envJoinFails : Env :=
  { joinResult := fun r =>
      if r == "!abc:example.org" then Except.error "M_FORBIDDEN"
      else Except.ok () }

/-- Sample invite event for room "!abc:example.org". -/
def eventInviteAbc : Event :=
  Event.invite { room_id := "!abc:example.org" } { sender := "@carol:example.org" }

/-- Sample message event in another room. -/
def eventMsgOther : Event :=
  Event.message { room_id := "!other:example.org" }
    { sender := "@alice:example.org", body := "hi" }

/-- Claim C1: for every incoming text message whose sender is not the bot's
own account id, `message_callback` issues exactly one send, to the room the
message arrived in, whose content is the text type with body
"You said: " prepended to the original body (src/bot.py lines 111-142; the
wire form of the spec's type "text" is msgtype "m.text"). -/
theorem message_callback_echoes (b : Bot) (u : String) (room : MatrixRoom)
    (event : RoomMessageText) (hb : b.bot_user_id = some u)
    (hs : event.sender ≠ u) :
    message_callback b room event =
      [Action.room_send room.room_id "m.room.message"
        { msgtype := "m.text", body := "You said: " ++ event.body }] := by
  unfold message_callback senderIsSelf
  rw [hb]
  simp [hs]

/-- Claim C1 witness: the spec scenario — "@alice:example.org" says "hi" in
room "!abc:example.org", the bot replies "You said: hi" there. -/
theorem message_callback_echoes_witness :
    message_callback botA roomAbc msgHi =
      [Action.room_send "!abc:example.org" "m.room.message"
        { msgtype := "m.text", body := "You said: hi" }] :=
  message_callback_echoes botA "@bot:example.org" roomAbc msgHi rfl (by decide)

/-- Claim C2: a message whose sender equals the bot's own account id is
skipped silently — the callback returns before the echo logic, so no handler
work happens and no outbound send is issued (src/bot.py lines 124-125). -/
theorem message_callback_self_skip (b : Bot) (u : String) (room : MatrixRoom)
    (event : RoomMessageText) (hb : b.bot_user_id = some u)
    (hs : event.sender = u) :
    message_callback b room event = [] := by
  unfold message_callback senderIsSelf
  rw [hb, hs]
  simp

/-- Claim C2 witness: the bot's own message produces zero outbound calls. -/
theorem message_callback_self_skip_witness :
    message_callback botA roomAbc
      { sender := "@bot:example.org", body := "ping" } = [] :=
  message_callback_self_skip botA "@bot:example.org" roomAbc
    { sender := "@bot:example.org", body := "ping" } rfl rfl

/-- Claim C3: for every invite event the invite callback issues exactly the
join call for the invited room (src/bot.py lines 93-109), and — with the
collaborator's effect of a successful join modelled from the spec — the
room's membership state afterwards is joined. -/
theorem invite_auto_join (env : Env) (room : MatrixRoom) (ev : InviteEvent)
    (st : String → Option MembershipState)
    (h : env.joinResult room.room_id = Except.ok ()) :
    (invite_callback env room ev).actions = [Action.join room.room_id] ∧
    applyActions st (invite_callback env room ev).actions room.room_id =
      some MembershipState.joined := by
  simp [invite_callback, h, applyActions, applyAction]

/-- Claim C3 witness: the invite to "!abc:example.org" is auto-joined and
its membership becomes joined. -/
theorem invite_auto_join_witness :
    (invite_callback envOk roomAbc { sender := "@carol:example.org" }).actions
      = [Action.join "!abc:example.org"] ∧
    applyActions (fun _ => none)
      (invite_callback envOk roomAbc { sender := "@carol:example.org" }).actions
      "!abc:example.org" = some MembershipState.joined :=
  invite_auto_join envOk roomAbc { sender := "@carol:example.org" }
    (fun _ => none) rfl

/-- Claim C4 counterexample: with configured account id "@bot:example.org",
a whoami response carrying the non-matching identifier
"@imposter:example.org" is nevertheless accepted by login — the code only
tests that the response has a user_id attribute (src/bot.py line 86), so
the claimed matching requirement is refuted. -/
theorem login_accepts_mismatched_identity :
    cfgA.matrixBotUser = some "@bot:example.org" ∧
    ("@imposter:example.org" : String) ≠ "@bot:example.org" ∧
    login cfgA (initBot cfgA) (WhoamiResponse.success "@imposter:example.org") =
      Except.ok
        ({ homeserver := some "https://matrix.example.org"
         , client_user_id := some "@bot:example.org"
         , bot_user_id := some "@bot:example.org"
         , access_token := some "secret-token" },
         WhoamiResponse.success "@imposter:example.org") :=
  ⟨rfl, by decide, rfl⟩

/-- Claim C4 amended: login succeeds iff the probe response carries a
user_id attribute at all — its value is never compared to the configured
account id — and on a response without one it raises an authentication
error that is fatal to startup: the whoami probe is then the only network
call ever attempted, so no sync is started. -/
theorem login_hasattr_iff_fatal (cfg : Config) (resp : WhoamiResponse) (n : Nat) :
    ((∃ r, login cfg (initBot cfg) resp = Except.ok r) ↔
        hasUserIdAttr resp = true) ∧
    (hasUserIdAttr resp = false →
      startNetCalls cfg resp n = [NetCall.whoamiCall]) := by
  cases resp with
  | success uid =>
    refine ⟨⟨fun _ => rfl, fun _ => ⟨_, rfl⟩⟩, ?_⟩
    intro h
    simp [hasUserIdAttr] at h
  | failure msg =>
    refine ⟨⟨?_, ?_⟩, fun _ => rfl⟩
    · rintro ⟨r, hr⟩
      simp [login, hasUserIdAttr] at hr
    · intro h
      simp [hasUserIdAttr] at h

/-- Claim C4 witness: a failed probe leaves the whoami call as the only
network call of the run — sync never starts. -/
theorem login_hasattr_iff_fatal_witness :
    startNetCalls cfgA (WhoamiResponse.failure "M_UNKNOWN_TOKEN") 2 =
      [NetCall.whoamiCall] :=
  (login_hasattr_iff_fatal cfgA (WhoamiResponse.failure "M_UNKNOWN_TOKEN") 2).2 rfl

/-- Claim C5 counterexample: already with one observed loop poll, the polls
after the first do carry the full_state flag, refuting the claim that
full_state is passed only on the very first call — in fact the first call
passes no full_state at all and every sync_forever poll passes
full_state=True (src/bot.py lines 164 and 170). -/
theorem full_state_not_only_first :
    ¬ (∀ c ∈ (startSyncCalls 1).drop 1, c.full_state = none) := by
  intro hall
  have hmem : ({ timeoutMs := 30000, full_state := some true } : SyncCall)
      ∈ (startSyncCalls 1).drop 1 := by
    simp [startSyncCalls]
  have := hall _ hmem
  simp at this

/-- Claim C5 amended: the initial sync call passes no full_state argument,
and every subsequent poll — issued through sync_forever — passes
full_state=True, the opposite of the claimed placement. -/
theorem full_state_on_subsequent_polls (n : Nat) :
    (startSyncCalls n).head? =
      some { timeoutMs := 30000, full_state := none } ∧
    ∀ c ∈ (startSyncCalls n).drop 1, c.full_state = some true := by
  refine ⟨rfl, ?_⟩
  intro c hc
  simp only [startSyncCalls, List.drop_succ_cons, List.drop_zero] at hc
  rw [List.eq_of_mem_replicate hc]

/-- Claim C5 witness: the second poll of a run carries full_state=True. -/
theorem full_state_on_subsequent_polls_witness :
    ({ timeoutMs := 30000, full_state := some true } : SyncCall).full_state =
      some true :=
  (full_state_on_subsequent_polls 1).2 _ (by simp [startSyncCalls])

/-- Claim C6 counterexample: with all three required configuration values
absent, startup does not fail fast — the bot object is constructed with the
missing values and the very first operation of start is the whoami network
probe, so network I/O is attempted with no prior configuration error. -/
theorem absent_config_reaches_network :
    initBot cfgNone =
      { homeserver := none, client_user_id := none, bot_user_id := none
      , access_token := none } ∧
    (startNetCalls cfgNone (WhoamiResponse.failure "M_UNKNOWN_TOKEN") 0).head?
      = some NetCall.whoamiCall :=
  ⟨rfl, rfl⟩

/-- Claim C6 amended: absent configuration values are never checked —
`os.getenv` yields None, initialization always succeeds storing whatever is
present, and the first network call (the whoami probe) is attempted
regardless of the configuration. -/
theorem startup_never_checks_config (cfg : Config) (resp : WhoamiResponse)
    (n : Nat) :
    (startNetCalls cfg resp n).head? = some NetCall.whoamiCall ∧
    (initBot cfg).bot_user_id = cfg.matrixBotUser :=
  ⟨rfl, rfl⟩

/-- Claim C7: evaluation of the __main__ guard (src/bot.py lines 195-201).
The interrupt half of the claim holds: a KeyboardInterrupt prints the stop
notice and the process exits 0. The fatal-error half does not: any other
exception is caught by the blanket handler, "Bot crashed" is printed, and
the script falls off its end — exit status 0, not the non-zero status the
claim requires. -/
theorem mainGuard_crash_exits_zero :
    mainGuard RunOutcome.keyboardInterrupt =
      (["\nBot stopped by user"], 0) ∧
    mainGuard (RunOutcome.raised "Token authentication failed") =
      (["Bot crashed: Token authentication failed"], 0) :=
  ⟨rfl, rfl⟩

/-- Claim C8 counterexample: a failed auto-join on the first event of a
batch aborts the batch — the following message event is never dispatched
(no echo send appears) — and the exception escapes the loop, so a whole
subsequent batch is never processed either. -/
theorem failed_join_aborts_batch_example :
    dispatchBatch envJoinFails botA [eventInviteAbc, eventMsgOther] =
      { actions := [Action.join "!abc:example.org"], err := some "M_FORBIDDEN" } ∧
    runBatches envJoinFails botA
        [[eventInviteAbc, eventMsgOther], [eventMsgOther]] =
      { actions := [Action.join "!abc:example.org"], err := some "M_FORBIDDEN" } := by
  constructor <;> rfl

/-- Claim C8 amended: a failure raised by a handler is not isolated — it
aborts dispatch of the remaining events of its batch and escapes the sync
loop, so no later batch is processed; only the process-boundary guard
catches it. -/
theorem handler_failure_aborts (env : Env) (b : Bot) (e : Event)
    (rest : List Event) (bs : List (List Event)) (m : String)
    (h : (handleEvent env b e).err = some m) :
    dispatchBatch env b (e :: rest) =
      { actions := (handleEvent env b e).actions, err := some m } ∧
    runBatches env b ((e :: rest) :: bs) =
      { actions := (handleEvent env b e).actions, err := some m } := by
  have h1 : dispatchBatch env b (e :: rest) =
      { actions := (handleEvent env b e).actions, err := some m } := by
    unfold dispatchBatch
    rw [h]
  refine ⟨h1, ?_⟩
  unfold runBatches
  rw [h1]

/-- Claim C8 witness: the aborting dispatch applied to the concrete failing
batch. -/
theorem handler_failure_aborts_witness :
    dispatchBatch envJoinFails botA [eventInviteAbc, eventMsgOther] =
      { actions := (handleEvent envJoinFails botA eventInviteAbc).actions
      , err := some "M_FORBIDDEN" } :=
  (handler_failure_aborts envJoinFails botA eventInviteAbc [eventMsgOther]
    [] "M_FORBIDDEN" rfl).1

/-- Claim C9: under the spec-modelled backoff controller, one more
consecutive network failure never decreases the delay, the delay never
exceeds the configured cap, and a single successful poll resets the failure
counter to zero, returning the delay to its floor (the base interval). -/
theorem backoff_monotone_capped_reset (c : BackoffController)
    (h : c.base ≤ c.cap) :
    c.delay ≤ c.onNetworkError.delay ∧
    c.delay ≤ c.cap ∧
    c.onSuccess.failures = 0 ∧
    c.onSuccess.delay = c.base := by
  refine ⟨?_, ?_, rfl, ?_⟩
  · unfold BackoffController.delay BackoffController.onNetworkError
    refine min_le_min ?_ le_rfl
    exact Nat.mul_le_mul_left _ (Nat.pow_le_pow_right (by norm_num) (Nat.le_succ _))
  · exact min_le_right _ _
  · unfold BackoffController.delay BackoffController.onSuccess
    simp [min_eq_left h]

/-- Claim C9 witness: a controller with base 1, cap 60 and three consecutive
failures. -/
theorem backoff_monotone_capped_reset_witness :
    (⟨1, 60, 3⟩ : BackoffController).delay ≤
      (⟨1, 60, 3⟩ : BackoffController).onNetworkError.delay ∧
    (⟨1, 60, 3⟩ : BackoffController).delay ≤ 60 ∧
    (⟨1, 60, 3⟩ : BackoffController).onSuccess.failures = 0 ∧
    (⟨1, 60, 3⟩ : BackoffController).onSuccess.delay = 1 :=
  backoff_monotone_capped_reset ⟨1, 60, 3⟩ (by norm_num)

/-- Claim C10: the self-message filter compares against the MATRIX_BOT_USER
configuration value captured at startup — after any successful login the
stored bot_user_id still equals the configured value, whatever identity the
whoami probe returned — and when that value is absent no sender ever
matches the filter, so every message, the bot's own included, produces the
echo send. -/
theorem filter_uses_config_not_whoami (cfg : Config) (resp : WhoamiResponse)
    (b1 : Bot) (r1 : WhoamiResponse) (room : MatrixRoom)
    (event : RoomMessageText)
    (hlogin : login cfg (initBot cfg) resp = Except.ok (b1, r1)) :
    b1.bot_user_id = cfg.matrixBotUser ∧
    (cfg.matrixBotUser = none →
      message_callback b1 room event =
        [Action.room_send room.room_id "m.room.message"
          { msgtype := "m.text", body := "You said: " ++ event.body }]) := by
  unfold login at hlogin
  by_cases hattr : hasUserIdAttr resp = true
  · simp only [hattr, if_true, Except.ok.injEq, Prod.mk.injEq] at hlogin
    obtain ⟨hb, hr⟩ := hlogin
    have hbu : b1.bot_user_id = cfg.matrixBotUser := by
      rw [← hb]
      rfl
    refine ⟨hbu, ?_⟩
    intro hnone
    unfold message_callback senderIsSelf
    rw [hbu, hnone]
    simp
  · simp [hattr] at hlogin

/-- Claim C10 witness: MATRIX_BOT_USER unset, whoami probe returning
"@bot:example.org" — a message from that very identity is still echoed. -/
theorem filter_uses_config_not_whoami_witness :
    message_callback
      { homeserver := some "https://matrix.example.org", client_user_id := none
      , bot_user_id := none, access_token := some "secret-token" }
      roomAbc { sender := "@bot:example.org", body := "hi" } =
      [Action.room_send "!abc:example.org" "m.room.message"
        { msgtype := "m.text", body := "You said: hi" }] :=
  (filter_uses_config_not_whoami cfgNoUser
      (WhoamiResponse.success "@bot:example.org")
      { homeserver := some "https://matrix.example.org", client_user_id := none
      , bot_user_id := none, access_token := some "secret-token" }
      (WhoamiResponse.success "@bot:example.org") roomAbc
      { sender := "@bot:example.org", body := "hi" } rfl).2 rfl

end MatrixBot
